import Mathlib

/-!
Shallow embedding of src/nfsmanager.py (class NFSManager).

The program shells out to external commands (mount, umount, ls, docker,
os.kill) and reads OS state (mount table, PID file, process liveness).
We model those external collaborators as oracles: a `MountEnv` record of
scripted command results per call site, a boolean mount flag per local
path, and a `PidWorld` for the PID-file lifecycle.  Every operation
returns, besides its boolean result, the new state and the list of
side-effecting commands it issued (the `Effect` trace), so that claims
about "no mount command issued" or "unmount was invoked" are statements
about the trace.
-/

namespace NFSManager

/-- One share record from the JSON configuration, with the defaults
applied by the dict.get calls in mount_share/unmount_share
(docker defaults to "none", delete_on_mount to false). -/
structure Share where
  name : String
  server : String
  remote_path : String
  local_path : String
  options : String
  docker : String
  delete_on_mount : Bool
deriving DecidableEq, Repr

/-- Observable side-effecting operations issued by the manager:
directory creation, directory clearing, the mount command, the forced
umount command, a docker start/stop command, a time.sleep, and an error
log line. -/
inductive Effect where
  | mkdirE : String → Effect
  | cleanE : String → Effect
  | mountE : String → String → String → String → Effect
  | umountE : String → Effect
  | dockerE : String → String → Effect
  | sleepE : Nat → Effect
  | logE : String → Effect
deriving DecidableEq, Repr

/-- Oracle for the external command results one mount_share/unmount_share
call can observe: the accessibility probe on an already-mounted path
(is_accessible before mounting), the mount command exit status, the
accessibility probe after a successful mount, the docker start and stop
exit statuses, and the umount exit status. -/
structure MountEnv where
  accessPre : Bool
  mountOk : Bool
  accessPost : Bool
  dockerStartOk : Bool
  dockerStopOk : Bool
  umountOk : Bool
deriving DecidableEq, Repr

/-- Result of one mount_share/unmount_share call: the returned boolean,
the mount-table state of the share's local path afterwards, and the
trace of commands issued. -/
structure OpResult where
  ok : Bool
  mounted : Bool
  trace : List Effect
deriving DecidableEq, Repr

/-- The docker stop command segment issued at the top of unmount_share
when a workload is configured (src/nfsmanager.py lines 268-269). -/
def stopSeg (s : Share) : List Effect :=
  if s.docker = "none" then [] else [Effect.dockerE s.docker "stop"]

/-- unmount_share (src/nfsmanager.py lines 257-285): empty local_path is
an error; otherwise docker stop is issued first whenever a workload is
configured; if the path is not mounted the call is a success without any
umount command; otherwise umount -f is run and its exit status decides
the result. -/
def unmount_share (env : MountEnv) (mounted : Bool) (s : Share) : OpResult :=
  if s.local_path = "" then
    { ok := false, mounted := mounted, trace := [] }
  else
    let tr0 : List Effect := stopSeg s
    if mounted then
      let tr1 := tr0 ++ [Effect.umountE s.local_path]
      if env.umountOk then
        { ok := true, mounted := false, trace := tr1 }
      else
        { ok := false, mounted := mounted, trace := tr1 }
    else
      { ok := true, mounted := mounted, trace := tr0 }

/-- mount_share (src/nfsmanager.py lines 200-255): validate the four
required fields, mkdir the mount point, short-circuit when already
mounted and accessible, otherwise unmount an inaccessible mount and
sleep 2, optionally clear the directory, run the mount command; on
mount success sleep 5 and re-probe accessibility, unmounting again and
failing when the probe fails, else start the docker workload when one
is configured. -/
def mount_share (env : MountEnv) (mounted : Bool) (s : Share) : OpResult :=
  if s.server = "" ∨ s.remote_path = "" ∨ s.local_path = "" ∨ s.options = "" then
    { ok := false, mounted := mounted, trace := [] }
  else
    let tr0 : List Effect := [Effect.mkdirE s.local_path]
    if mounted && env.accessPre then
      { ok := true, mounted := mounted, trace := tr0 }
    else
      let pre : Bool × List Effect :=
        if mounted then
          let u := unmount_share env mounted s
          (u.mounted, tr0 ++ u.trace ++ [Effect.sleepE 2])
        else
          (mounted, tr0)
      let tr1 := pre.2 ++ (if s.delete_on_mount then [Effect.cleanE s.local_path] else [])
      let tr2 := tr1 ++ [Effect.mountE s.server s.remote_path s.local_path s.options]
      if env.mountOk then
        let tr3 := tr2 ++ [Effect.sleepE 5]
        if env.accessPost then
          if s.docker = "none" then
            { ok := true, mounted := true, trace := tr3 }
          else
            let tr4 := tr3 ++ [Effect.dockerE s.docker "start"]
            if env.dockerStartOk then
              { ok := true, mounted := true, trace := tr4 }
            else
              { ok := false, mounted := true, trace := tr4 }
        else
          let u := unmount_share env true s
          { ok := false, mounted := u.mounted, trace := tr3 ++ u.trace }
      else
        { ok := false, mounted := pre.1, trace := tr2 }

/-- Pointwise update of the mount table at one local path. -/
def update (mt : String → Bool) (p : String) (b : Bool) : String → Bool :=
  fun q => if q = p then b else mt q

/-- Oracle for one iteration of the check_shares loop: whether the body
raises an unexpected exception (caught by the per-share try/except),
the result of the is_accessible probe of the check phase, and the
command results for the mount_share/unmount_share calls it makes. -/
structure CheckEnv where
  raises : Bool
  accessCheck : Bool
  menv : MountEnv

/-- One loop body of check_shares (src/nfsmanager.py lines 289-311),
assuming no unexpected exception: skip shares without a local_path,
probe mounted and accessible, and when either fails unmount a mounted
share (sleeping 2) and call mount_share, sleeping 5 when that fails. -/
def check_one (e : CheckEnv) (mt : String → Bool) (s : Share) :
    (String → Bool) × List Effect :=
  if s.local_path = "" then
    (mt, [Effect.logE s.name])
  else
    let m := mt s.local_path
    let a := if m then e.accessCheck else false
    if m && a then
      (mt, [])
    else
      let pre : (String → Bool) × List Effect :=
        if m then
          let u := unmount_share e.menv m s
          (update mt s.local_path u.mounted, u.trace ++ [Effect.sleepE 2])
        else
          (mt, [])
      let r := mount_share e.menv (pre.1 s.local_path) s
      (update pre.1 s.local_path r.mounted,
       pre.2 ++ r.trace ++ (if r.ok then [] else [Effect.sleepE 5]))

/-- Result of a check_shares cycle: final mount table, number of loop
iterations performed, and the concatenated effect trace. -/
structure CheckResult where
  table : String → Bool
  visited : Nat
  trace : List Effect

/-- check_shares (src/nfsmanager.py lines 287-313): iterate the
configured shares in order; each body runs under a try/except, so an
unexpected exception (the raises flag of that share's oracle) is logged
and the loop continues with the next share. -/
def check_shares (env : Nat → CheckEnv) (mt : String → Bool) :
    List Share → CheckResult
  | [] => { table := mt, visited := 0, trace := [] }
  | s :: rest =>
    let e := env 0
    let step : (String → Bool) × List Effect :=
      if e.raises then (mt, [Effect.logE s.name]) else check_one e mt s
    let r := check_shares (fun i => env (i + 1)) step.1 rest
    { table := r.table, visited := r.visited + 1, trace := step.2 ++ r.trace }

/-- State the PID-file lifecycle functions operate on: the PID file
content if the file exists, whether reading the file raises an I/O
error, which PIDs are alive right now (the os.kill(pid, 0) probe, and
whether os.kill(pid, SIGTERM) succeeds), and after a SIGTERM was sent,
the poll index from which the process reads as dead (none when the
process never dies from the SIGTERM). -/
structure PidWorld where
  pidFile : Option String
  readErr : Bool
  alive : Nat → Bool
  deadAfterPolls : Option Nat

/-- Parse a list of decimal digits into a number, failing on the first
non-digit character. -/
def parseDigits : List Char → Nat → Option Nat
  | [], acc => some acc
  | c :: cs, acc =>
    if c.isDigit then parseDigits cs (acc * 10 + (c.toNat - 48)) else none

/-- The int(f.read().strip()) parse of the PID file content: strip
surrounding whitespace, then read a nonempty all-digit string as a
decimal number (the PID file is written from str(os.getpid()), so a
nonnegative decimal is the only well-formed content); anything else
raises ValueError, modelled as none. -/
def parsePid (content : String) : Option Nat :=
  let stripped :=
    ((content.data.dropWhile Char.isWhitespace).reverse.dropWhile
      Char.isWhitespace).reverse
  match stripped with
  | [] => none
  | cs => parseDigits cs 0

/-- is_running (src/nfsmanager.py lines 54-69): no PID file means not
running; a read error or an unparseable PID is swallowed by the outer
except and reported as not running; a live PID means running; a dead
PID means not running, and the stale PID file is removed. -/
def is_running (w : PidWorld) : Bool × PidWorld :=
  match w.pidFile with
  | none => (false, w)
  | some content =>
    if w.readErr then
      (false, w)
    else
      match parsePid content with
      | none => (false, w)
      | some pid =>
        if w.alive pid then (true, w) else (false, { w with pidFile := none })

/-- Signals sent and sleeps taken by stop_running_instance. -/
inductive SigEffect where
  | term : Nat → SigEffect
  | kill : Nat → SigEffect
  | sleep1 : SigEffect
deriving DecidableEq, Repr

/-- Whether the os.kill(pid, 0) probe at poll index i reports the
process dead, given the death schedule. -/
def deadAt (dead : Option Nat) (i : Nat) : Bool :=
  match dead with
  | none => false
  | some d => decide (d ≤ i)

/-- The polling loop of stop_running_instance (lines 81-93): up to k
more probes starting at poll index i; a dead probe returns with no
further effects, a live probe sleeps one second and retries; after the
probes are exhausted SIGKILL is sent. -/
def poll (dead : Option Nat) (pid : Nat) : Nat → Nat → List SigEffect
  | 0, _ => [SigEffect.kill pid]
  | k + 1, i =>
    if deadAt dead i then [] else SigEffect.sleep1 :: poll dead pid k (i + 1)

/-- stop_running_instance (src/nfsmanager.py lines 71-100): no PID file,
a read error, or an unparseable PID returns false without signals;
SIGTERM to a dead PID raises OSError, whose handler removes the PID
file and the function returns false; otherwise SIGTERM is sent, death
is polled once per second for up to 10 attempts, SIGKILL is sent when
the process is still alive after them, and in either case the PID file
is removed and the function returns true. -/
def stop_running_instance (w : PidWorld) : Bool × PidWorld × List SigEffect :=
  match w.pidFile with
  | none => (false, w, [])
  | some content =>
    if w.readErr then
      (false, w, [])
    else
      match parsePid content with
      | none => (false, w, [])
      | some pid =>
        if w.alive pid then
          (true, { w with pidFile := none },
           SigEffect.term pid :: poll w.deadAfterPolls pid 10 0)
        else
          (false, { w with pidFile := none }, [SigEffect.term pid])

/-- Outcome of read_config (src/nfsmanager.py lines 121-132): either the
shares list, or a missing/malformed configuration file, on which
read_config calls sys.exit(1). -/
inductive ConfigResult where
  | ok : List Share → ConfigResult
  | err : ConfigResult

/-- The unmount-all pass of cleanup: unmount_share on every configured
share in iteration order, threading the mount table. -/
def unmount_all (env : Nat → MountEnv) (mt : String → Bool) :
    List Share → (String → Bool) × List Effect
  | [] => (mt, [])
  | s :: rest =>
    let u := unmount_share (env 0) (mt s.local_path) s
    let r := unmount_all (fun i => env (i + 1)) (update mt s.local_path u.mounted) rest
    (r.1, u.trace ++ r.2)

/-- cleanup (src/nfsmanager.py lines 113-119): remove the PID file, then
read the configuration and unmount every share.  read_config calls
sys.exit(1) when the configuration file is missing or malformed, which
terminates the process from inside cleanup; that path is modelled as
none.  On success the result is the PID-file state (removed), the final
mount table and the trace. -/
def cleanup (cr : ConfigResult) (env : Nat → MountEnv) (_pid : Option String)
    (mt : String → Bool) :
    Option (Option String × (String → Bool) × List Effect) :=
  match cr with
  | ConfigResult.err => none
  | ConfigResult.ok shares =>
    let r := unmount_all env mt shares
    some (none, r.1, r.2)

/-- The directory-clearing segment of mount_share, issued when
delete_on_mount is set (src/nfsmanager.py lines 228-229). -/
def delSeg (s : Share) : List Effect :=
  if s.delete_on_mount then [Effect.cleanE s.local_path] else []

/-- The remount-preparation segment of mount_share: when the share was
mounted but inaccessible, the trace of the recovery unmount followed by
the 2-second settle sleep (src/nfsmanager.py lines 222-223). -/
def preSeg (env : MountEnv) (m : Bool) (s : Share) : List Effect :=
  if m then (unmount_share env true s).trace ++ [Effect.sleepE 2] else []

/-- A concrete all-success command environment used in evaluations. -/
def envT : MountEnv :=
  { accessPre := false, mountOk := true, accessPost := true,
    dockerStartOk := true, dockerStopOk := true, umountOk := true }

/-- A concrete workload-free share used in evaluations. -/
def shData : Share :=
  { name := "data", server := "nfs1", remote_path := "/export/data",
    local_path := "/mnt/data", options := "ro", docker := "none",
    delete_on_mount := false }

/-- A concrete share with an associated docker workload. -/
def shApp : Share :=
  { name := "app", server := "nfs1", remote_path := "/export/app",
    local_path := "/mnt/app", options := "rw", docker := "app1",
    delete_on_mount := false }

lemma unmount_share_not_mounted (env : MountEnv) (s : Share)
    (h : s.local_path ≠ "") :
    unmount_share env false s = { ok := true, mounted := false, trace := stopSeg s } := by
  simp [unmount_share, h]

lemma unmount_share_mounted (env : MountEnv) (s : Share)
    (h : s.local_path ≠ "") :
    unmount_share env true s =
      { ok := env.umountOk, mounted := !env.umountOk,
        trace := stopSeg s ++ [Effect.umountE s.local_path] } := by
  cases hu : env.umountOk <;> simp [unmount_share, h, hu]

lemma mount_share_incomplete (env : MountEnv) (m : Bool) (s : Share)
    (h : s.server = "" ∨ s.remote_path = "" ∨ s.local_path = "" ∨ s.options = "") :
    mount_share env m s = { ok := false, mounted := m, trace := [] } := by
  unfold mount_share
  rw [if_pos h]

lemma mount_share_early (env : MountEnv) (s : Share)
    (h1 : s.server ≠ "") (h2 : s.remote_path ≠ "") (h3 : s.local_path ≠ "")
    (h4 : s.options ≠ "") (ha : env.accessPre = true) :
    mount_share env true s =
      { ok := true, mounted := true, trace := [Effect.mkdirE s.local_path] } := by
  simp [mount_share, h1, h2, h3, h4, ha]

lemma mount_share_recovery (env : MountEnv) (m : Bool) (s : Share)
    (h1 : s.server ≠ "") (h2 : s.remote_path ≠ "") (h3 : s.local_path ≠ "")
    (h4 : s.options ≠ "")
    (hpre : m = false ∨ env.accessPre = false)
    (hmo : env.mountOk = true) (hpo : env.accessPost = false) :
    mount_share env m s =
      { ok := false, mounted := !env.umountOk,
        trace := Effect.mkdirE s.local_path ::
          (preSeg env m s ++ delSeg s ++
           [Effect.mountE s.server s.remote_path s.local_path s.options,
            Effect.sleepE 5] ++ stopSeg s ++ [Effect.umountE s.local_path]) } := by
  cases m with
  | false =>
    simp [mount_share, h1, h2, h3, h4, hmo, hpo, preSeg, delSeg,
      unmount_share_mounted env s h3]
  | true =>
    have hp : env.accessPre = false := by
      rcases hpre with h | h
      · exact absurd h (by simp)
      · exact h
    simp [mount_share, h1, h2, h3, h4, hmo, hpo, hp, preSeg, delSeg,
      unmount_share_mounted env s h3]

lemma mount_share_workload (env : MountEnv) (m : Bool) (s : Share)
    (h1 : s.server ≠ "") (h2 : s.remote_path ≠ "") (h3 : s.local_path ≠ "")
    (h4 : s.options ≠ "") (hd : s.docker ≠ "none")
    (hpre : m = false ∨ env.accessPre = false)
    (hmo : env.mountOk = true) (hpo : env.accessPost = true) :
    mount_share env m s =
      { ok := env.dockerStartOk, mounted := true,
        trace := Effect.mkdirE s.local_path ::
          (preSeg env m s ++ delSeg s ++
           [Effect.mountE s.server s.remote_path s.local_path s.options,
            Effect.sleepE 5, Effect.dockerE s.docker "start"]) } := by
  cases m with
  | false =>
    cases hds : env.dockerStartOk <;>
      simp [mount_share, h1, h2, h3, h4, hd, hmo, hpo, hds, preSeg, delSeg]
  | true =>
    have hp : env.accessPre = false := by
      rcases hpre with h | h
      · exact absurd h (by simp)
      · exact h
    cases hds : env.dockerStartOk <;>
      simp [mount_share, h1, h2, h3, h4, hd, hmo, hpo, hds, hp, preSeg, delSeg,
        unmount_share_mounted env s h3]

lemma mount_share_ok_fields (env : MountEnv) (m : Bool) (s : Share)
    (h : (mount_share env m s).ok = true) :
    s.server ≠ "" ∧ s.remote_path ≠ "" ∧ s.local_path ≠ "" ∧ s.options ≠ "" := by
  by_contra hc
  have hd : s.server = "" ∨ s.remote_path = "" ∨ s.local_path = "" ∨ s.options = "" := by
    by_contra hd
    push_neg at hd
    exact hc ⟨hd.1, hd.2.1, hd.2.2.1, hd.2.2.2⟩
  rw [mount_share_incomplete env m s hd] at h
  simp at h

lemma mount_share_cmd_failed (env : MountEnv) (m : Bool) (s : Share)
    (h1 : s.server ≠ "") (h2 : s.remote_path ≠ "") (h3 : s.local_path ≠ "")
    (h4 : s.options ≠ "")
    (hpre : m = false ∨ env.accessPre = false)
    (hmo : env.mountOk = false) :
    mount_share env m s =
      { ok := false, mounted := if m then !env.umountOk else false,
        trace := Effect.mkdirE s.local_path ::
          (preSeg env m s ++ delSeg s ++
           [Effect.mountE s.server s.remote_path s.local_path s.options]) } := by
  cases m with
  | false =>
    simp [mount_share, h1, h2, h3, h4, hmo, preSeg, delSeg]
  | true =>
    have hp : env.accessPre = false := by
      rcases hpre with h | h
      · exact absurd h (by simp)
      · exact h
    simp [mount_share, h1, h2, h3, h4, hmo, hp, preSeg, delSeg,
      unmount_share_mounted env s h3]

lemma mount_share_success_no_workload (env : MountEnv) (m : Bool) (s : Share)
    (h1 : s.server ≠ "") (h2 : s.remote_path ≠ "") (h3 : s.local_path ≠ "")
    (h4 : s.options ≠ "") (hd : s.docker = "none")
    (hpre : m = false ∨ env.accessPre = false)
    (hmo : env.mountOk = true) (hpo : env.accessPost = true) :
    mount_share env m s =
      { ok := true, mounted := true,
        trace := Effect.mkdirE s.local_path ::
          (preSeg env m s ++ delSeg s ++
           [Effect.mountE s.server s.remote_path s.local_path s.options,
            Effect.sleepE 5]) } := by
  cases m with
  | false =>
    simp [mount_share, h1, h2, h3, h4, hd, hmo, hpo, preSeg, delSeg]
  | true =>
    have hp : env.accessPre = false := by
      rcases hpre with h | h
      · exact absurd h (by simp)
      · exact h
    simp [mount_share, h1, h2, h3, h4, hd, hmo, hpo, hp, preSeg, delSeg,
      unmount_share_mounted env s h3]

lemma mount_share_ok_mounted (env : MountEnv) (m : Bool) (s : Share)
    (h : (mount_share env m s).ok = true) :
    (mount_share env m s).mounted = true := by
  obtain ⟨h1, h2, h3, h4⟩ := mount_share_ok_fields env m s h
  by_cases hma : m = true ∧ env.accessPre = true
  · rw [hma.1] at h ⊢
    rw [mount_share_early env s h1 h2 h3 h4 hma.2]
  · have hpre : m = false ∨ env.accessPre = false := by
      by_cases hm : m = true
      · right
        cases hA : env.accessPre
        · rfl
        · exact absurd ⟨hm, hA⟩ hma
      · left
        exact Bool.not_eq_true m ▸ hm
    cases hmo : env.mountOk
    · rw [mount_share_cmd_failed env m s h1 h2 h3 h4 hpre hmo] at h
      simp at h
    · cases hpo : env.accessPost
      · rw [mount_share_recovery env m s h1 h2 h3 h4 hpre hmo hpo] at h
        simp at h
      · by_cases hd : s.docker = "none"
        · rw [mount_share_success_no_workload env m s h1 h2 h3 h4 hd hpre hmo hpo]
        · rw [mount_share_workload env m s h1 h2 h3 h4 hd hpre hmo hpo]

lemma poll_dies (pid : Nat) :
    ∀ (k i d : Nat), i ≤ d → d < i + k →
      poll (some d) pid k i = List.replicate (d - i) SigEffect.sleep1 := by
  intro k
  induction k with
  | zero =>
    intro i d hle hlt
    omega
  | succ k ih =>
    intro i d hle hlt
    by_cases hd : d ≤ i
    · have hdi : d - i = 0 := by omega
      simp [poll, deadAt, hd, hdi]
    · have hstep : poll (some d) pid (k + 1) i
        = SigEffect.sleep1 :: poll (some d) pid k (i + 1) := by
        simp [poll, deadAt, hd]
      rw [hstep, ih (i + 1) d (by omega) (by omega)]
      have hrep : d - i = (d - (i + 1)) + 1 := by omega
      rw [hrep, List.replicate_succ]

lemma poll_survives (pid : Nat) :
    ∀ (k i : Nat) (dead : Option Nat), (∀ j, j < i + k → deadAt dead j = false) →
      poll dead pid k i = List.replicate k SigEffect.sleep1 ++ [SigEffect.kill pid] := by
  intro k
  induction k with
  | zero =>
    intro i dead _
    simp [poll]
  | succ k ih =>
    intro i dead hall
    have h0 : deadAt dead i = false := hall i (by omega)
    have hstep : poll dead pid (k + 1) i = SigEffect.sleep1 :: poll dead pid k (i + 1) := by
      simp [poll, h0]
    rw [hstep, ih (i + 1) dead (fun j hj => hall j (by omega)), List.replicate_succ]
    simp

lemma check_shares_visited :
    ∀ (cfg : List Share) (env : Nat → CheckEnv) (mt : String → Bool),
      (check_shares env mt cfg).visited = cfg.length := by
  intro cfg
  induction cfg with
  | nil =>
    intro env mt
    rfl
  | cons s rest ih =>
    intro env mt
    simp [check_shares, ih]

lemma check_shares_raises (env : Nat → CheckEnv) (mt : String → Bool)
    (s : Share) (rest : List Share) (hr : (env 0).raises = true) :
    check_shares env mt (s :: rest) =
      { table := (check_shares (fun i => env (i + 1)) mt rest).table,
        visited := (check_shares (fun i => env (i + 1)) mt rest).visited + 1,
        trace := Effect.logE s.name :: (check_shares (fun i => env (i + 1)) mt rest).trace } := by
  simp [check_shares, hr]

/-- Whether the mounted flag of path p survives an unmount_all pass over
the share list: each share whose local_path is p and whose umount
command succeeds clears the flag. -/
def survivesPass (env : Nat → MountEnv) (p : String) : List Share → Bool
  | [] => true
  | s :: rest =>
    (if s.local_path = p then
       (if s.local_path = "" then true else !(env 0).umountOk)
     else true)
      && survivesPass (fun i => env (i + 1)) p rest

lemma unmount_share_mounted_flag (e : MountEnv) (b : Bool) (s : Share) :
    (unmount_share e b s).mounted
      = (b && (if s.local_path = "" then true else !e.umountOk)) := by
  by_cases hl : s.local_path = ""
  · simp [unmount_share, hl]
  · cases b with
    | false => simp [unmount_share, hl]
    | true => cases hu : e.umountOk <;> simp [unmount_share, hl, hu]

lemma unmount_all_table :
    ∀ (shares : List Share) (env : Nat → MountEnv) (mt : String → Bool) (p : String),
      (unmount_all env mt shares).1 p = (mt p && survivesPass env p shares) := by
  intro shares
  induction shares with
  | nil =>
    intro env mt p
    simp [unmount_all, survivesPass]
  | cons s rest ih =>
    intro env mt p
    rw [unmount_all, survivesPass]
    simp only
    rw [ih]
    by_cases hp : p = s.local_path
    · subst hp
      simp [update, unmount_share_mounted_flag, Bool.and_assoc]
    · simp [update, hp, Ne.symm]

lemma unmount_all_idempotent (shares : List Share) (env : Nat → MountEnv)
    (mt : String → Bool) (p : String) :
    (unmount_all env (unmount_all env mt shares).1 shares).1 p
      = (unmount_all env mt shares).1 p := by
  rw [unmount_all_table, unmount_all_table, Bool.and_assoc, Bool.and_self]

/-- Concrete command environments and worlds used by the witnesses. -/
def envPre : MountEnv := { envT with accessPre := true }

def envPostFail : MountEnv := { envT with accessPost := false }

def envStartFail : MountEnv := { envT with dockerStartOk := false }

def mtNone : String → Bool := fun _ => false

def envRaise : Nat → CheckEnv :=
  fun _ => { raises := true, accessCheck := false, menv := envT }

def wNoPid : PidWorld :=
  { pidFile := none, readErr := false, alive := fun _ => false, deadAfterPolls := none }

def wReadErr : PidWorld :=
  { pidFile := some "123", readErr := true, alive := fun _ => false, deadAfterPolls := none }

def wDead : PidWorld :=
  { pidFile := some "123", readErr := false, alive := fun _ => false, deadAfterPolls := none }

def wDies3 : PidWorld :=
  { pidFile := some "123", readErr := false, alive := fun _ => true, deadAfterPolls := some 3 }

def wStuck : PidWorld :=
  { pidFile := some "123", readErr := false, alive := fun _ => true, deadAfterPolls := none }

/-- C1: when the mount command succeeds but the post-mount accessibility
probe (after the 5-unit settle delay) reports inaccessible, mount_share
invokes the unmount operation on that share (the trace ends with the
mount command, the settle sleep, the workload-stop segment and the
umount command) and returns failure. -/
theorem mount_share_untrusted_mount_unmounts (s : Share) (env : MountEnv) (m : Bool)
    (h1 : s.server ≠ "") (h2 : s.remote_path ≠ "") (h3 : s.local_path ≠ "")
    (h4 : s.options ≠ "")
    (hpre : m = false ∨ env.accessPre = false)
    (hmo : env.mountOk = true) (hpo : env.accessPost = false) :
    (mount_share env m s).ok = false ∧
    ∃ t, (mount_share env m s).trace
        = t ++ Effect.mountE s.server s.remote_path s.local_path s.options ::
            Effect.sleepE 5 :: (stopSeg s ++ [Effect.umountE s.local_path]) := by
  rw [mount_share_recovery env m s h1 h2 h3 h4 hpre hmo hpo]
  refine ⟨rfl, Effect.mkdirE s.local_path :: (preSeg env m s ++ delSeg s), ?_⟩
  simp

/-- Witness for C1 at a concrete share and environment. -/
theorem mount_share_untrusted_mount_unmounts_witness :
    (mount_share envPostFail false shData).ok = false ∧
    ∃ t, (mount_share envPostFail false shData).trace
        = t ++ Effect.mountE shData.server shData.remote_path shData.local_path
                shData.options ::
            Effect.sleepE 5 :: (stopSeg shData ++ [Effect.umountE shData.local_path]) :=
  mount_share_untrusted_mount_unmounts shData envPostFail false
    (by decide) (by decide) (by decide) (by decide) (Or.inl rfl) rfl rfl

/-- C2: check_shares performs one loop iteration per configured share,
no matter which iterations raise, and an iteration whose body raises an
unexpected error only logs it, leaving the mount table unchanged and
the remaining shares processed exactly as before. -/
theorem check_shares_processes_all (env : Nat → CheckEnv) (mt : String → Bool)
    (cfg : List Share) :
    (check_shares env mt cfg).visited = cfg.length ∧
    (∀ s rest, (env 0).raises = true →
      check_shares env mt (s :: rest) =
        { table := (check_shares (fun i => env (i + 1)) mt rest).table,
          visited := (check_shares (fun i => env (i + 1)) mt rest).visited + 1,
          trace := Effect.logE s.name ::
            (check_shares (fun i => env (i + 1)) mt rest).trace }) :=
  ⟨check_shares_visited cfg env mt,
   fun s rest hr => check_shares_raises env mt s rest hr⟩

/-- Witness for C2: two shares are both visited under an always-raising
environment, and a raising head share is logged and skipped. -/
theorem check_shares_processes_all_witness :
    (check_shares envRaise mtNone [shData, shApp]).visited = 2 ∧
    check_shares envRaise mtNone [shData] =
      { table := (check_shares (fun i => envRaise (i + 1)) mtNone []).table,
        visited := (check_shares (fun i => envRaise (i + 1)) mtNone []).visited + 1,
        trace := Effect.logE shData.name ::
          (check_shares (fun i => envRaise (i + 1)) mtNone []).trace } :=
  ⟨(check_shares_processes_all envRaise mtNone [shData, shApp]).1,
   (check_shares_processes_all envRaise mtNone [shData]).2 shData [] rfl⟩

/-- C3: a share with any required field empty makes mount_share return
failure with an empty effect trace (no mkdir, no directory clearing, no
mount command, no workload command) and an unchanged mount state. -/
theorem mount_share_incomplete_no_side_effects (s : Share) (env : MountEnv) (m : Bool)
    (h : s.server = "" ∨ s.remote_path = "" ∨ s.local_path = "" ∨ s.options = "") :
    mount_share env m s = { ok := false, mounted := m, trace := [] } :=
  mount_share_incomplete env m s h

/-- Witness for C3 at a share with an empty server field. -/
theorem mount_share_incomplete_no_side_effects_witness :
    mount_share envT false { shData with server := "" }
      = { ok := false, mounted := false, trace := [] } :=
  mount_share_incomplete_no_side_effects { shData with server := "" } envT false
    (Or.inl rfl)

/-- C4: with a workload configured, when the mount command succeeds and
the post-mount probe succeeds, mount_share issues the workload start
and returns exactly the workload-start result: failure to start fails
the call, success returns success. -/
theorem mount_share_workload_gates_result (s : Share) (env : MountEnv) (m : Bool)
    (h1 : s.server ≠ "") (h2 : s.remote_path ≠ "") (h3 : s.local_path ≠ "")
    (h4 : s.options ≠ "") (hd : s.docker ≠ "none")
    (hpre : m = false ∨ env.accessPre = false)
    (hmo : env.mountOk = true) (hpo : env.accessPost = true) :
    (mount_share env m s).ok = env.dockerStartOk ∧
    Effect.dockerE s.docker "start" ∈ (mount_share env m s).trace := by
  rw [mount_share_workload env m s h1 h2 h3 h4 hd hpre hmo hpo]
  refine ⟨rfl, ?_⟩
  simp

/-- Witness for C4, with a succeeding and a failing workload start. -/
theorem mount_share_workload_gates_result_witness :
    ((mount_share envT false shApp).ok = envT.dockerStartOk ∧
      Effect.dockerE shApp.docker "start" ∈ (mount_share envT false shApp).trace) ∧
    ((mount_share envStartFail false shApp).ok = envStartFail.dockerStartOk ∧
      Effect.dockerE shApp.docker "start" ∈ (mount_share envStartFail false shApp).trace) :=
  ⟨mount_share_workload_gates_result shApp envT false
      (by decide) (by decide) (by decide) (by decide) (by decide) (Or.inl rfl) rfl rfl,
   mount_share_workload_gates_result shApp envStartFail false
      (by decide) (by decide) (by decide) (by decide) (by decide) (Or.inl rfl) rfl rfl⟩

/-- C5: stop_running_instance returns false with no signals when no PID
file is present, on a read error, or on an unparseable PID; SIGTERM to
an already-dead PID is the unrecoverable-error path returning false;
when the process dies at poll d of the once-per-second probes it
returns true after d sleeps with the PID file removed and no SIGKILL;
and when the process survives all 10 probes it sends SIGKILL after 10
sleeps, removes the PID file and returns true. -/
theorem stop_running_instance_behaviour (w : PidWorld) :
    (w.pidFile = none → stop_running_instance w = (false, w, [])) ∧
    (w.readErr = true → stop_running_instance w = (false, w, [])) ∧
    (∀ content, w.pidFile = some content → w.readErr = false →
      parsePid content = none → stop_running_instance w = (false, w, [])) ∧
    (∀ content pid, w.pidFile = some content → w.readErr = false →
      parsePid content = some pid → w.alive pid = false →
      stop_running_instance w
        = (false, { w with pidFile := none }, [SigEffect.term pid])) ∧
    (∀ content pid d, w.pidFile = some content → w.readErr = false →
      parsePid content = some pid → w.alive pid = true →
      w.deadAfterPolls = some d → d < 10 →
      stop_running_instance w
        = (true, { w with pidFile := none },
           SigEffect.term pid :: List.replicate d SigEffect.sleep1)) ∧
    (∀ content pid, w.pidFile = some content → w.readErr = false →
      parsePid content = some pid → w.alive pid = true →
      (∀ j, j < 10 → deadAt w.deadAfterPolls j = false) →
      stop_running_instance w
        = (true, { w with pidFile := none },
           SigEffect.term pid ::
             (List.replicate 10 SigEffect.sleep1 ++ [SigEffect.kill pid]))) := by
  refine ⟨?_, ?_, ?_, ?_, ?_, ?_⟩
  · intro h
    simp [stop_running_instance, h]
  · intro h
    cases hp : w.pidFile <;> simp [stop_running_instance, hp, h]
  · intro content hp hre hparse
    simp [stop_running_instance, hp, hre, hparse]
  · intro content pid hp hre hparse halive
    simp [stop_running_instance, hp, hre, hparse, halive]
  · intro content pid d hp hre hparse halive hdead hlt
    simp only [stop_running_instance, hp, hre, Bool.false_eq_true, if_false, hparse,
      halive, if_true, hdead]
    rw [poll_dies pid 10 0 d (by omega) (by omega)]
    simp
  · intro content pid hp hre hparse halive hall
    simp only [stop_running_instance, hp, hre, Bool.false_eq_true, if_false, hparse,
      halive, if_true]
    rw [poll_survives pid 10 0 w.deadAfterPolls (fun j hj => hall j (by omega))]

/-- Witness for C5: the no-PID-file, dead-process, dies-while-polling
and survives-polling cases at concrete worlds. -/
theorem stop_running_instance_behaviour_witness :
    stop_running_instance wNoPid = (false, wNoPid, []) ∧
    stop_running_instance wDead
      = (false, { wDead with pidFile := none }, [SigEffect.term 123]) ∧
    stop_running_instance wDies3
      = (true, { wDies3 with pidFile := none },
         SigEffect.term 123 :: List.replicate 3 SigEffect.sleep1) ∧
    stop_running_instance wStuck
      = (true, { wStuck with pidFile := none },
         SigEffect.term 123 ::
           (List.replicate 10 SigEffect.sleep1 ++ [SigEffect.kill 123])) :=
  ⟨(stop_running_instance_behaviour wNoPid).1 rfl,
   (stop_running_instance_behaviour wDead).2.2.2.1 "123" 123 rfl rfl (by decide) rfl,
   (stop_running_instance_behaviour wDies3).2.2.2.2.1 "123" 123 3 rfl rfl (by decide)
     rfl rfl (by decide),
   (stop_running_instance_behaviour wStuck).2.2.2.2.2 "123" 123 rfl rfl (by decide)
     rfl (by decide)⟩

/-- C6: is_running on a PID file naming a dead process returns false
and removes the stale PID file; with no PID file, or on an I/O error
while reading it, is_running returns false and changes nothing. -/
theorem is_running_stale_or_absent (w : PidWorld) :
    (w.pidFile = none → is_running w = (false, w)) ∧
    (w.readErr = true → is_running w = (false, w)) ∧
    (∀ content pid, w.pidFile = some content → w.readErr = false →
      parsePid content = some pid → w.alive pid = false →
      is_running w = (false, { w with pidFile := none })) := by
  refine ⟨?_, ?_, ?_⟩
  · intro h
    simp [is_running, h]
  · intro h
    cases hp : w.pidFile <;> simp [is_running, hp, h]
  · intro content pid hp hre hparse halive
    simp [is_running, hp, hre, hparse, halive]

/-- Witness for C6 at concrete worlds: absent PID file, read error, and
stale PID file. -/
theorem is_running_stale_or_absent_witness :
    is_running wNoPid = (false, wNoPid) ∧
    is_running wReadErr = (false, wReadErr) ∧
    is_running wDead = (false, { wDead with pidFile := none }) :=
  ⟨(is_running_stale_or_absent wNoPid).1 rfl,
   (is_running_stale_or_absent wReadErr).2.1 rfl,
   (is_running_stale_or_absent wDead).2.2 "123" 123 rfl rfl (by decide) rfl⟩

/-- C7: a share that is already mounted and accessible makes mount_share
return success with only the mkdir in its trace, so in particular a
second mount_share call after a successful first one, while the mount
stays accessible, issues no second mount command. -/
theorem mount_share_accessible_short_circuit (s : Share) (env1 env2 : MountEnv)
    (m : Bool) :
    (s.server ≠ "" → s.remote_path ≠ "" → s.local_path ≠ "" → s.options ≠ "" →
      env1.accessPre = true →
      mount_share env1 true s
        = { ok := true, mounted := true, trace := [Effect.mkdirE s.local_path] }) ∧
    ((mount_share env1 m s).ok = true → env2.accessPre = true →
      (mount_share env2 (mount_share env1 m s).mounted s).ok = true ∧
      ∀ a b c d,
        Effect.mountE a b c d ∉ (mount_share env2 (mount_share env1 m s).mounted s).trace) := by
  constructor
  · intro h1 h2 h3 h4 ha
    exact mount_share_early env1 s h1 h2 h3 h4 ha
  · intro hok ha2
    obtain ⟨h1, h2, h3, h4⟩ := mount_share_ok_fields env1 m s hok
    rw [mount_share_ok_mounted env1 m s hok,
      mount_share_early env2 s h1 h2 h3 h4 ha2]
    refine ⟨rfl, ?_⟩
    intro a b c d
    simp

/-- Witness for C7: the short-circuit at a mounted accessible share, and
the absence of a second mount command after a successful first call. -/
theorem mount_share_accessible_short_circuit_witness :
    (mount_share envPre true shData
      = { ok := true, mounted := true, trace := [Effect.mkdirE shData.local_path] }) ∧
    ((mount_share envPre (mount_share envT false shData).mounted shData).ok = true ∧
      ∀ a b c d,
        Effect.mountE a b c d ∉
          (mount_share envPre (mount_share envT false shData).mounted shData).trace) :=
  ⟨(mount_share_accessible_short_circuit shData envPre envPre true).1
      (by decide) (by decide) (by decide) (by decide) rfl,
   (mount_share_accessible_short_circuit shData envT envPre false).2 (by decide) rfl⟩

/-- C8: unmount_share on a share with a non-empty local path that is not
currently mounted returns success and issues no umount command. -/
theorem unmount_share_idempotent_noop (s : Share) (env : MountEnv) (m : Bool)
    (h : s.local_path ≠ "") (hm : m = false) :
    (unmount_share env m s).ok = true ∧
    ∀ p, Effect.umountE p ∉ (unmount_share env m s).trace := by
  subst hm
  rw [unmount_share_not_mounted env s h]
  refine ⟨rfl, ?_⟩
  intro p
  unfold stopSeg
  split <;> simp

/-- Witness for C8 at a concrete unmounted share with a workload. -/
theorem unmount_share_idempotent_noop_witness :
    (unmount_share envT false shApp).ok = true ∧
    ∀ p, Effect.umountE p ∉ (unmount_share envT false shApp).trace :=
  unmount_share_idempotent_noop shApp envT false (by decide) rfl

/-- C9 counterexample: cleanup reaches read_config, which calls
sys.exit(1) when the configuration file is missing or malformed, so at
such a world cleanup terminates the process (modelled none) instead of
returning to its caller — refuting the claim that cleanup never
terminates the process. -/
theorem cleanup_config_error_terminates :
    cleanup ConfigResult.err (fun _ => envT) (some "123") mtNone = none := rfl

/-- C9 (amended): when the configuration is readable, cleanup returns
normally (no exception and no process exit), removes the PID file, and
unmounts every configured share in iteration order via unmount_all,
whose per-share failures are swallowed inside unmount_share; the pass
is idempotent on the mount table. When the configuration file is
missing or malformed, cleanup terminates the process via read_config's
fatal exit. -/
theorem cleanup_config_ok_idempotent (shares : List Share) (env : Nat → MountEnv)
    (pid : Option String) (mt : String → Bool) :
    cleanup (ConfigResult.ok shares) env pid mt
      = some (none, unmount_all env mt shares) ∧
    (∀ p, (unmount_all env (unmount_all env mt shares).1 shares).1 p
      = (unmount_all env mt shares).1 p) :=
  ⟨rfl, fun p => unmount_all_idempotent shares env mt p⟩

/-- C10: the recovery unmount after an inaccessible "successful" mount
issues a workload-stop command although the workload was never started
in that call, and the unconditional workload stop of unmount_share runs
even when the share is not mounted. -/
theorem workload_stop_without_start (s : Share) (env : MountEnv) (m : Bool) :
    (s.server ≠ "" → s.remote_path ≠ "" → s.local_path ≠ "" → s.options ≠ "" →
      s.docker ≠ "none" → (m = false ∨ env.accessPre = false) →
      env.mountOk = true → env.accessPost = false →
      Effect.dockerE s.docker "stop" ∈ (mount_share env m s).trace) ∧
    (s.local_path ≠ "" → s.docker ≠ "none" →
      unmount_share env false s
        = { ok := true, mounted := false,
            trace := [Effect.dockerE s.docker "stop"] }) := by
  constructor
  · intro h1 h2 h3 h4 hd hpre hmo hpo
    rw [mount_share_recovery env m s h1 h2 h3 h4 hpre hmo hpo]
    simp [stopSeg, hd]
  · intro h hd
    rw [unmount_share_not_mounted env s h]
    simp [stopSeg, hd]

/-- Witness for C10 at a concrete share with a workload. -/
theorem workload_stop_without_start_witness :
    Effect.dockerE shApp.docker "stop" ∈ (mount_share envPostFail false shApp).trace ∧
    unmount_share envT false shApp
      = { ok := true, mounted := false,
          trace := [Effect.dockerE shApp.docker "stop"] } :=
  ⟨(workload_stop_without_start shApp envPostFail false).1
      (by decide) (by decide) (by decide) (by decide) (by decide) (Or.inl rfl) rfl rfl,
   (workload_stop_without_start shApp envT false).2 (by decide) (by decide)⟩

end NFSManager
